import Mathlib

/-!
Verification of the pymaid `core.py` object model: a shallow embedding of the
`CatmaidNeuron` / `CatmaidNeuronList` / `Volume` classes and of the lazy
attribute-resolution, cache-invalidation, batched-fetch and serialization
logic, together with theorems settling the specified properties.

Numbers that the Python code holds as floats are modelled as exact rationals
(`ℚ`); external collaborators (the `pymaid`, `morpho`, `igraph_catmaid`
modules) are passed in as function parameters, except where a definition is
explicitly marked as modelled from the spec.
-/

namespace Pymaid

/-- One row of the treenode table (columns as used by core.py and produced by
`from_swc`: treenode id, SWC label, position, radius, parent reference with
`none` standing for a null parent). -/
structure NodeRow where
  treenode_id : ℚ
  label : ℚ
  x : ℚ
  y : ℚ
  z : ℚ
  radius : ℚ
  parent_id : Option ℚ
deriving DecidableEq

/-- The node classification produced by `morpho.classify_nodes`
(root/branch/slab/end). -/
inductive NodeType where
  | root
  | slab
  | branch
  | endpoint
deriving DecidableEq

/-- The treenode table: its rows plus the two temporary per-node columns that
`_clear_temp_attr` drops (`type`, stored as a parallel column when present,
and `flow_centrality`, whose values core.py never reads, so only its presence
is tracked). -/
structure NodeTable where
  rows : List NodeRow
  typeCol : Option (List NodeType)
  flowCol : Bool
deriving DecidableEq

/-- One row of the connector table. -/
structure ConnRow where
  treenode_id : ℚ
  connector_id : ℚ
  relation : ℚ
  x : ℚ
  y : ℚ
  z : ℚ
deriving DecidableEq

/-- The tag mapping: tag name to list of treenode ids. -/
abbrev TagMap := List (String × List ℚ)

/-- Look a tag name up in the tag mapping (`tag in self.tags` /
`self.tags[tag]`). -/
def tagLookup (tags : TagMap) (k : String) : Option (List ℚ) :=
  (tags.find? (fun p => p.1 == k)).map (·.2)

/-- The remote-session collaborator (`CatmaidInstance`); core.py only stores
and compares it, so its contents are irrelevant here. -/
structure CatmaidInstance where
  server_url : String
deriving DecidableEq

/-- The igraph representation built by `igraph_catmaid.neuron2graph`
(edges keyed by node id with 3D-distance weights); core.py never inspects it,
only caches it. -/
structure IGraph where
  edges : List (ℚ × ℚ × ℚ)
deriving DecidableEq

/-- A `CatmaidNeuron`'s attribute store. Every lazily fetched or derived
attribute is an `Option`: `none` models the attribute being absent from the
instance `__dict__` (so the next access resolves it), `some v` models a cached
value. -/
structure CatmaidNeuron where
  skeleton_id : String
  remote_instance : Option CatmaidInstance
  soma_detection_radius : ℚ
  soma_detection_tag : Option String
  color : Nat × Nat × Nat
  nodes : Option NodeTable
  connectors : Option (List ConnRow)
  tags : Option TagMap
  neuron_name : Option String
  review_status : Option ℚ
  annotations : Option (List String)
  igraph : Option IGraph
  slabs : Option (List (List ℚ))
  nodes_geodesic_distance_matrix : Option (List (List ℚ))
deriving DecidableEq

/-- Modelled from the spec: `morpho.classify_nodes` lives in the `morpho`
module, which is not under `src/`; spec section 6 gives its contract — it
"tags each node as root/branch/slab/end, in place". A node with a null parent
is a `root`; otherwise a node that is parent of no other row is an
`endpoint`, a node that is parent of at least two rows is a `branch`, and any
other node is a `slab`. -/
def classifyRow (rows : List NodeRow) (r : NodeRow) : NodeType :=
  if r.parent_id.isNone then NodeType.root
  else
    let nChildren := (rows.filter (fun c => c.parent_id == some r.treenode_id)).length
    if nChildren = 0 then NodeType.endpoint
    else if 2 ≤ nChildren then NodeType.branch
    else NodeType.slab

/-- Modelled from the spec: applying `morpho.classify_nodes` to a treenode
table adds the `type` column computed from the rows. -/
def classify_nodes (t : NodeTable) : NodeTable :=
  { t with typeCol := some (t.rows.map (classifyRow t.rows)) }

/-- A CATMAID mesh (`pymaid.core.Volume`): an ordered vertex sequence, an
ordered sequence of triangular faces given as vertex indices, a name and a
display color (RGB plus opacity). -/
structure Volume where
  vertices : List (ℚ × ℚ × ℚ)
  faces : List (Nat × Nat × Nat)
  name : String
  color : Nat × Nat × Nat × ℚ
deriving DecidableEq

/-- The first half of `_clear_temp_attr`'s column handling: drop the temporary
per-node columns `flow_centrality` and `type`. -/
def dropTempCols (t : NodeTable) : NodeTable :=
  { t with typeCol := none, flowCol := false }

/-- Embeds `CatmaidNeuron._clear_temp_attr` (core.py): delete the cached `igraph`,
`slabs` and `nodes_geodesic_distance_matrix` attributes, drop the temporary
`flow_centrality` and `type` node columns, then reclassify the nodes
(`morpho.classify_nodes(self, inplace=True)`). -/
def clear_temp_attr (n : CatmaidNeuron) : CatmaidNeuron :=
  { n with
    igraph := none
    slabs := none
    nodes_geodesic_distance_matrix := none
    nodes := n.nodes.map (fun t => classify_nodes (dropTempCols t)) }

/-- Embeds `CatmaidNeuron.__init__` re-run with an existing `CatmaidNeuron` `x` (the
code path used by `prune_distal_to`, `prune_proximal_to` and `reload`):
identity, color, structural payload (classified on copy if the `type` column
is missing), name and soma configuration are taken from `x`; the cached
`igraph`/`slabs` are copied only when present on `x` (`if 'igraph' in
x.__dict__`), otherwise the old instance attribute survives; attributes
`__init__` never assigns (review status, annotations, geodesic matrix) keep
their old values, since Python's `self.__init__(prox, ...)` only overwrites
what it assigns. -/
def initFromNeuron (old x : CatmaidNeuron) : CatmaidNeuron :=
  { old with
    skeleton_id := x.skeleton_id
    color := x.color
    nodes := x.nodes.map (fun t => if t.typeCol.isNone then classify_nodes t else t)
    connectors := x.connectors
    tags := x.tags
    neuron_name := x.neuron_name
    igraph := match x.igraph with | some g => some g | none => old.igraph
    slabs := match x.slabs with | some s => some s | none => old.slabs
    remote_instance := x.remote_instance
    soma_detection_radius := x.soma_detection_radius
    soma_detection_tag := x.soma_detection_tag }

/-- Embeds `CatmaidNeuron.reroot` (core.py): delegate to `morpho.reroot_neuron`
(external collaborator, passed as a parameter) in place, then clear the
temporary attributes. -/
def reroot (reroot_neuron : CatmaidNeuron → ℚ → CatmaidNeuron) (new_root : ℚ)
    (n : CatmaidNeuron) : CatmaidNeuron :=
  clear_temp_attr (reroot_neuron n new_root)

/-- Embeds `CatmaidNeuron.prune_distal_to` (core.py): for each node reference in
turn, `morpho.cut_neuron` produces `(dist, prox)` and the entity is
re-initialised from the proximal part; finally the temporary attributes are
cleared. -/
def prune_distal_to (cut_neuron : CatmaidNeuron → ℚ → CatmaidNeuron × CatmaidNeuron)
    (node : List ℚ) (n : CatmaidNeuron) : CatmaidNeuron :=
  clear_temp_attr (node.foldl (fun cur nd => initFromNeuron cur (cut_neuron cur nd).2) n)

/-- Embeds `CatmaidNeuron.prune_proximal_to` (core.py): `morpho.cut_neuron` produces
`(dist, prox)`, the entity is re-initialised from the distal part, then the
temporary attributes are cleared. -/
def prune_proximal_to (cut_neuron : CatmaidNeuron → ℚ → CatmaidNeuron × CatmaidNeuron)
    (node : ℚ) (n : CatmaidNeuron) : CatmaidNeuron :=
  clear_temp_attr (initFromNeuron n (cut_neuron n node).1)

/-- Embeds `CatmaidNeuron.downsample` with `inplace=True` (core.py): delegate to
`morpho.downsample_neuron` in place, then clear the temporary attributes. -/
def downsample (downsample_neuron : CatmaidNeuron → ℚ → Bool → CatmaidNeuron)
    (factor : ℚ) (preserve_cn_treenodes : Bool) (n : CatmaidNeuron) : CatmaidNeuron :=
  clear_temp_attr (downsample_neuron n factor preserve_cn_treenodes)

/-- Modelled from the spec: `morpho.prune_by_strahler` is in the `morpho`
module, which is not under `src/`. core.py's method does not call
`_clear_temp_attr` itself — its comment reads "No need to call this as
morpho.prune_by_strahler does this already" — and spec section 4.2 requires
the unconditional purge after the structural transform, so the collaborator
is modelled as the structural transform followed by the purge. -/
def morpho_prune_by_strahler (transform : CatmaidNeuron → CatmaidNeuron)
    (n : CatmaidNeuron) : CatmaidNeuron :=
  clear_temp_attr (transform n)

/-- Embeds `CatmaidNeuron.prune_by_strahler` (core.py): delegate entirely to
`morpho.prune_by_strahler`, which performs the purge itself. -/
def prune_by_strahler (transform : CatmaidNeuron → CatmaidNeuron)
    (n : CatmaidNeuron) : CatmaidNeuron :=
  morpho_prune_by_strahler transform n

/-- Embeds `CatmaidNeuron.prune_by_longest_neurite` (core.py): delegate to
`morpho.longest_neurite` in place, then clear the temporary attributes. -/
def prune_by_longest_neurite (longest_neurite : CatmaidNeuron → Bool → CatmaidNeuron)
    (reroot_to_soma : Bool) (n : CatmaidNeuron) : CatmaidNeuron :=
  clear_temp_attr (longest_neurite n reroot_to_soma)

/-- Embeds `CatmaidNeuron.prune_by_volume` (core.py): delegate to `morpho.in_volume`
in place, then clear the temporary attributes. -/
def prune_by_volume (in_volume : CatmaidNeuron → Volume → String → CatmaidNeuron)
    (v : Volume) (mode : String) (n : CatmaidNeuron) : CatmaidNeuron :=
  clear_temp_attr (in_volume n v mode)

/-- Embeds `CatmaidNeuron.reload` (core.py): fetch the neuron again via
`pymaid.get_neuron`, re-run `__init__` from the fetched record, then clear
the temporary attributes. -/
def reload (get_neuron : String → CatmaidNeuron) (n : CatmaidNeuron) : CatmaidNeuron :=
  clear_temp_attr (initFromNeuron n (get_neuron n.skeleton_id))

/-- The derived-cache fields named by the invalidation claim are absent from
the attribute store: the igraph topology graph, the slab decomposition and
the geodesic distance matrix. -/
def derivedCachesAbsent (n : CatmaidNeuron) : Prop :=
  n.igraph = none ∧ n.slabs = none ∧ n.nodes_geodesic_distance_matrix = none

/-- The node-classification column is present and freshly computed from the
current rows, i.e. from the structural payload the operation just produced. -/
def classificationFresh (n : CatmaidNeuron) : Prop :=
  ∀ t, n.nodes = some t → t.typeCol = some (t.rows.map (classifyRow t.rows))

/-- The record returned by the external skeleton fetch (`pymaid.get_neuron`)
for one skeleton id: nodes, connectors, tags and name, delivered together. -/
structure SkeletonData where
  nodes : NodeTable
  connectors : List ConnRow
  tags : TagMap
  neuron_name : String
deriving DecidableEq

/-- Failure of an attribute access that requires the remote session: the
spec's `MissingSessionError`. -/
inductive FetchError where
  | missingSession
deriving DecidableEq

/-- The session-resolution idiom `if not remote_instance and not
self._remote_instance: ... elif not remote_instance: remote_instance =
self._remote_instance`: an explicit argument wins, else the stored one. -/
def effectiveSession (remote_instance stored : Option CatmaidInstance) :
    Option CatmaidInstance :=
  match remote_instance with
  | some s => some s
  | none => stored

/-- Embeds `CatmaidNeuron.__init__` from a bare natural key: stores the canonical
string form of the key, the default soma-detection parameters and color, and
the resolved session (the explicit argument, else the ambient process-wide
fallback looked up in `sys.modules`/`globals()`); no payload is fetched. -/
def neuronFromKey (key : Int) (remote_instance ambient : Option CatmaidInstance) :
    CatmaidNeuron :=
  { skeleton_id := toString key
    remote_instance := effectiveSession remote_instance ambient
    soma_detection_radius := 500
    soma_detection_tag := some "soma"
    color := (255, 255, 0)
    nodes := none
    connectors := none
    tags := none
    neuron_name := none
    review_status := none
    annotations := none
    igraph := none
    slabs := none
    nodes_geodesic_distance_matrix := none }

/-- The body of `get_skeleton` after a successful fetch (also the per-member
update step of `CatmaidNeuronList.get_skeletons`): classify the fetched nodes
when unclassified, assign the four structural fields and the name, then
`_clear_temp_attr`. -/
def updateFromSkeleton (skeleton : SkeletonData) (n : CatmaidNeuron) : CatmaidNeuron :=
  clear_temp_attr
    { n with
      nodes := some (if skeleton.nodes.typeCol.isNone then classify_nodes skeleton.nodes
                     else skeleton.nodes)
      connectors := some skeleton.connectors
      tags := some skeleton.tags
      neuron_name := some skeleton.neuron_name }

/-- Embeds `CatmaidNeuron.get_skeleton` (core.py): raise (`MissingSessionError` in
the spec's taxonomy) when neither a `remote_instance` argument nor the stored
session collaborator is available; otherwise fetch the skeleton record,
classify its nodes when the `type` column is missing, assign
nodes/connectors/tags/name atomically and clear the temporary attributes. -/
def get_skeleton (fetch : CatmaidInstance → String → SkeletonData)
    (remote_instance : Option CatmaidInstance) (n : CatmaidNeuron) :
    Except FetchError CatmaidNeuron :=
  match effectiveSession remote_instance n.remote_instance with
  | none => Except.error FetchError.missingSession
  | some rm =>
    Except.ok (updateFromSkeleton (fetch rm n.skeleton_id) n)

/-- Embeds `__getattr__` for `nodes` on a `CatmaidNeuron`: the cached table when
present (no side effect), otherwise `get_skeleton` runs and the fresh table
is returned alongside the updated entity. -/
def access_nodes (fetch : CatmaidInstance → String → SkeletonData)
    (n : CatmaidNeuron) : Except FetchError (Option NodeTable × CatmaidNeuron) :=
  match n.nodes with
  | some t => Except.ok (some t, n)
  | none => (get_skeleton fetch none n).map (fun n2 => (n2.nodes, n2))

/-- Embeds `__getattr__` for `connectors` on a `CatmaidNeuron`. -/
def access_connectors (fetch : CatmaidInstance → String → SkeletonData)
    (n : CatmaidNeuron) : Except FetchError (Option (List ConnRow) × CatmaidNeuron) :=
  match n.connectors with
  | some c => Except.ok (some c, n)
  | none => (get_skeleton fetch none n).map (fun n2 => (n2.connectors, n2))

/-- Embeds `__getattr__` for `tags` on a `CatmaidNeuron`. -/
def access_tags (fetch : CatmaidInstance → String → SkeletonData)
    (n : CatmaidNeuron) : Except FetchError (Option TagMap × CatmaidNeuron) :=
  match n.tags with
  | some t => Except.ok (some t, n)
  | none => (get_skeleton fetch none n).map (fun n2 => (n2.tags, n2))

/-- Embeds `CatmaidNeuron.get_name` (core.py): with no session available anywhere,
log an error and return `None`, leaving the entity untouched; otherwise fetch
via `pymaid.get_names`, cache and return the name. -/
def get_name (fetch_names : CatmaidInstance → String → String)
    (remote_instance : Option CatmaidInstance) (n : CatmaidNeuron) :
    Option String × CatmaidNeuron :=
  match effectiveSession remote_instance n.remote_instance with
  | none => (none, n)
  | some rm =>
    (some (fetch_names rm n.skeleton_id),
     { n with neuron_name := some (fetch_names rm n.skeleton_id) })

/-- Embeds `CatmaidNeuron.get_review` (core.py): with no session available, log an
error and return `None`; otherwise fetch, cache and return the review
percentage. -/
def get_review (fetch_review : CatmaidInstance → String → ℚ)
    (remote_instance : Option CatmaidInstance) (n : CatmaidNeuron) :
    Option ℚ × CatmaidNeuron :=
  match effectiveSession remote_instance n.remote_instance with
  | none => (none, n)
  | some rm =>
    (some (fetch_review rm n.skeleton_id),
     { n with review_status := some (fetch_review rm n.skeleton_id) })

/-- Embeds `CatmaidNeuron.get_annotations` (core.py): with no session available, log
an error and return `None`; otherwise fetch, cache and return the annotation
list. -/
def get_annotations (fetch_annotations : CatmaidInstance → String → List String)
    (remote_instance : Option CatmaidInstance) (n : CatmaidNeuron) :
    Option (List String) × CatmaidNeuron :=
  match effectiveSession remote_instance n.remote_instance with
  | none => (none, n)
  | some rm =>
    (some (fetch_annotations rm n.skeleton_id),
     { n with annotations := some (fetch_annotations rm n.skeleton_id) })

/-- Result of `CatmaidNeuron._get_soma`: `None`, a single treenode id, or the
warning-logged list of candidates. -/
inductive SomaResult where
  | nothing
  | single (id : ℚ)
  | many (ids : List ℚ)
deriving DecidableEq

/-- Python truthiness of `self.soma_detection_tag` in
`if self.soma_detection_tag:` — `None` and the empty string are falsy. -/
def somaTagTruthy : Option String → Bool
  | none => false
  | some t => t ≠ ""

/-- The `tn` line of `CatmaidNeuron._get_soma`: treenode ids of the rows whose
radius strictly exceeds the detection radius
(`self.nodes[self.nodes.radius > self.soma_detection_radius]`). -/
def radiusCandidates (nodesT : NodeTable) (soma_detection_radius : ℚ) : List ℚ :=
  (nodesT.rows.filter (fun r => soma_detection_radius < r.radius)).map (·.treenode_id)

/-- The trailing length dispatch of `_get_soma`: `tn[0]` for one candidate,
`None` for zero, otherwise the warning-logged list `tn`. -/
def somaLenCase (l : List ℚ) : SomaResult :=
  if l.length = 1 then SomaResult.single (l.headD 0)
  else if l.length = 0 then SomaResult.nothing
  else SomaResult.many l

/-- Embeds `CatmaidNeuron._get_soma` (core.py): filter the node table for rows whose
radius exceeds `soma_detection_radius`; if a soma tag is configured, return
`None` when the tag is absent from `self.tags`, otherwise keep only the
candidates carrying the tag; finally return the single candidate, `None` for
zero candidates, or the whole list (with a logged warning) for several. -/
def get_soma (nodesT : NodeTable) (tags : TagMap) (soma_detection_radius : ℚ)
    (soma_detection_tag : Option String) : SomaResult :=
  if somaTagTruthy soma_detection_tag then
    match tagLookup tags (soma_detection_tag.getD "") with
    | none => SomaResult.nothing
    | some ids =>
      somaLenCase ((radiusCandidates nodesT soma_detection_radius).filter
        (fun n => decide (n ∈ ids)))
  else somaLenCase (radiusCandidates nodesT soma_detection_radius)

/-- The soma candidate set as the spec sentence words it: nodes whose radius
strictly exceeds the configured threshold, intersected with the nodes
carrying the configured soma tag when a tag name is configured (an absent tag
contributes the empty set). Stated from the spec for comparison with
`get_soma`, which is translated from the source. -/
def somaCandidatesSpec (nodesT : NodeTable) (tags : TagMap)
    (soma_detection_radius : ℚ) (soma_detection_tag : Option String) : List ℚ :=
  if somaTagTruthy soma_detection_tag then
    (radiusCandidates nodesT soma_detection_radius).filter
      (fun n => decide (n ∈ (tagLookup tags (soma_detection_tag.getD "")).getD []))
  else radiusCandidates nodesT soma_detection_radius

/-- A concrete one-node entity with a populated structural payload and a
cached igraph, used as the concrete input of the C1 counterexample. -/
def oneNodeNeuron : CatmaidNeuron :=
  { skeleton_id := "1"
    remote_instance := none
    soma_detection_radius := 500
    soma_detection_tag := some "soma"
    color := (255, 255, 0)
    nodes := some
      { rows := [{ treenode_id := 1, label := 0, x := 0, y := 0, z := 0,
                   radius := 1, parent_id := none }]
        typeCol := none
        flowCol := false }
    connectors := some []
    tags := some []
    neuron_name := none
    review_status := none
    annotations := none
    igraph := some { edges := [] }
    slabs := none
    nodes_geodesic_distance_matrix := none }

/-- The value of a numeric derived attribute as `__getattr__` reports it:
a number, or the string `'NA'` used when the structural payload is absent. -/
inductive NumAttr where
  | num (q : ℚ)
  | NA
deriving DecidableEq

/-- Embeds `tags.get(k, [])`. -/
def tagGetD (tags : TagMap) (k : String) : List ℚ :=
  (tagLookup tags k).getD []

/-- Rows of the node table paired with their `type` column entry. -/
def typedRows (t : NodeTable) : List (NodeRow × NodeType) :=
  t.rows.zip (t.typeCol.getD [])

/-- The treenode ids of the end-type rows
(`self.nodes[self.nodes.type == 'end'].treenode_id`). -/
def endNodeIds (t : NodeTable) : List ℚ :=
  ((typedRows t).filter (fun p => p.2 == NodeType.endpoint)).map (·.1.treenode_id)

/-- The `closed` list of `n_open_ends`: node ids tagged `ends`,
`uncertain end`, `uncertain continuation`, `not a branch` or `soma`,
concatenated in that order. -/
def closedEndIds (tags : TagMap) : List ℚ :=
  tagGetD tags "ends" ++ tagGetD tags "uncertain end" ++
    tagGetD tags "uncertain continuation" ++ tagGetD tags "not a branch" ++
    tagGetD tags "soma"

/-- Embeds `__getattr__` for `n_open_ends`: the empty-payload short-circuit first
(`return 0`); with a cached non-empty table, the end-type nodes not carrying
a closing tag are counted; without cached nodes the value is `'NA'`. The
`self.tags` read inside the branch is modelled by the cached tag mapping
(the populated case is the only one the claims exercise). -/
def attr_n_open_ends (n : CatmaidNeuron) : NumAttr :=
  match n.nodes with
  | some t =>
    if t.rows.isEmpty then NumAttr.num 0
    else NumAttr.num
      (((endNodeIds t).filter (fun i => decide (i ∉ closedEndIds (n.tags.getD [])))).length : ℚ)
  | none => NumAttr.NA

/-- Embeds `__getattr__` for `n_branch_nodes`: empty-payload short-circuit, then the
number of branch-type rows, else `'NA'`. -/
def attr_n_branch_nodes (n : CatmaidNeuron) : NumAttr :=
  match n.nodes with
  | some t =>
    if t.rows.isEmpty then NumAttr.num 0
    else NumAttr.num
      (((typedRows t).filter (fun p => p.2 == NodeType.branch)).length : ℚ)
  | none => NumAttr.NA

/-- Embeds `__getattr__` for `n_end_nodes`: empty-payload short-circuit, then the
number of end-type rows, else `'NA'`. -/
def attr_n_end_nodes (n : CatmaidNeuron) : NumAttr :=
  match n.nodes with
  | some t =>
    if t.rows.isEmpty then NumAttr.num 0
    else NumAttr.num
      (((typedRows t).filter (fun p => p.2 == NodeType.endpoint)).length : ℚ)
  | none => NumAttr.NA

/-- Embeds `__getattr__` for `cable_length`: empty-payload short-circuit, then the
external `morpho.calc_cable` collaborator, else `'NA'`. -/
def attr_cable_length (calc_cable : CatmaidNeuron → ℚ) (n : CatmaidNeuron) : NumAttr :=
  match n.nodes with
  | some t =>
    if t.rows.isEmpty then NumAttr.num 0
    else NumAttr.num (calc_cable n)
  | none => NumAttr.NA

/-- Embeds `__getattr__` for `n_nodes`: the row count when the table is cached,
else `'NA'`. -/
def attr_n_nodes (n : CatmaidNeuron) : NumAttr :=
  match n.nodes with
  | some t => NumAttr.num (t.rows.length : ℚ)
  | none => NumAttr.NA

/-- A concrete entity whose payload has been fetched and is empty. -/
def emptyPayloadNeuron : CatmaidNeuron :=
  { skeleton_id := "2"
    remote_instance := none
    soma_detection_radius := 500
    soma_detection_tag := some "soma"
    color := (255, 255, 0)
    nodes := some { rows := [], typeCol := some [], flowCol := false }
    connectors := some []
    tags := some []
    neuron_name := none
    review_status := none
    annotations := none
    igraph := none
    slabs := none
    nodes_geodesic_distance_matrix := none }

/-- Embeds `CatmaidNeuronList.get_skeletons` (core.py): with `skip_existing=True`
only the members without a cached node table need updating; when at least one
member needs it, ONE batched call to `pymaid.get_neuron` is issued whose key
list holds exactly those members' skeleton ids, and each of those members is
assigned the structural fields from the response (keyed by skeleton id) and
has its temporary attributes cleared. The batched external response is
modelled as a function of the requested key list, looked up per id; the
second component of the result is the trace of batched external calls, one
entry (the requested key list) per call. -/
def nl_get_skeletons (fetch : List String → String → SkeletonData)
    (skip_existing : Bool) (nl : List CatmaidNeuron) :
    List CatmaidNeuron × List (List String) :=
  let to_update := if skip_existing then nl.filter (fun n => n.nodes.isNone) else nl
  if to_update.isEmpty then (nl, [])
  else
    (nl.map (fun n =>
        if skip_existing && n.nodes.isSome then n
        else updateFromSkeleton (fetch (to_update.map (·.skeleton_id)) n.skeleton_id) n),
     [to_update.map (·.skeleton_id)])

/-- Embeds `CatmaidNeuronList.__getattr__` for a skeleton-derived vectorized
attribute (`n_nodes`, `cable_length`, `n_open_ends`, ...): run
`get_skeletons(skip_existing=True)`, then map the per-entity accessor over
the members in collection order. The per-entity accessor is a parameter so
that one definition covers every attribute in the dispatch list. -/
def nl_vectorized_attr {α : Type} (fetch : List String → String → SkeletonData)
    (value : CatmaidNeuron → α) (nl : List CatmaidNeuron) :
    List α × List (List String) :=
  ((nl_get_skeletons fetch true nl).1.map value, (nl_get_skeletons fetch true nl).2)

/-- Embeds `CatmaidNeuronList.get_names` (core.py): with `skip_existing=True` the
ids of the members lacking a cached name are collected into `to_update`, but
— exactly as the source is written — when `to_update` is non-empty the
batched `pymaid.get_names` call is passed `self.skeleton_id`, i.e. EVERY
member's key, and the response is written back to every member whose id it
covers. The response is modelled as a keyed mapping (a function of the
requested key list returning `none` for ids it does not cover). -/
def nl_get_names (fetch_names : List String → String → Option String)
    (skip_existing : Bool) (nl : List CatmaidNeuron) :
    List CatmaidNeuron × List (List String) :=
  let to_update := if skip_existing then
      (nl.filter (fun n => n.neuron_name.isNone)).map (·.skeleton_id)
    else nl.map (·.skeleton_id)
  if to_update.isEmpty then (nl, [])
  else
    (nl.map (fun n =>
        match fetch_names (nl.map (·.skeleton_id)) n.skeleton_id with
        | some nm => { n with neuron_name := some nm }
        | none => n),
     [nl.map (·.skeleton_id)])

/-- Embeds `CatmaidNeuronList.get_review` (core.py): with `skip_existing=True` only
the ids of members lacking a cached review status are requested, in one
batched call; the response (modelled as a keyed mapping over the requested
ids, `none` for ids it does not cover) is written back to the members it
covers. -/
def nl_get_review (fetch_review : List String → String → Option ℚ)
    (skip_existing : Bool) (nl : List CatmaidNeuron) :
    List CatmaidNeuron × List (List String) :=
  let to_update := if skip_existing then
      (nl.filter (fun n => n.review_status.isNone)).map (·.skeleton_id)
    else nl.map (·.skeleton_id)
  if to_update.isEmpty then (nl, [])
  else
    (nl.map (fun n =>
        match fetch_review to_update n.skeleton_id with
        | some p => { n with review_status := some p }
        | none => n),
     [to_update])

/-- A member with a cached name (used by the C5 evaluation). -/
def cachedNameNeuron : CatmaidNeuron :=
  { neuronFromKey 10 none none with neuron_name := some "cached-name" }

/-- A member without a cached name (used by the C5 evaluation). -/
def freshNameNeuron : CatmaidNeuron :=
  neuronFromKey 11 none none

/-- A concrete batched-name response covering both test members. -/
def c5FetchNames : List String → String → Option String :=
  fun _keys id =>
    if id = "10" then some "fresh-10"
    else if id = "11" then some "fresh-11"
    else none

/-- One iteration of `Volume.combine`'s loop: `offs = len(vertices)` (the
vertex count accumulated so far), then the mesh's vertices are concatenated
and its faces appended with every index raised by `offs`. -/
def combineStep (acc : List (ℚ × ℚ × ℚ) × List (Nat × Nat × Nat)) (vol : Volume) :
    List (ℚ × ℚ × ℚ) × List (Nat × Nat × Nat) :=
  (acc.1 ++ vol.vertices,
   acc.2 ++ vol.faces.map (fun f =>
     (f.1 + acc.1.length, f.2.1 + acc.1.length, f.2.2 + acc.1.length)))

/-- Embeds `Volume.combine` (core.py): start from empty vertex and face lists, run
the loop over the input meshes in order, and package the result with the
given name and color. -/
def Volume.combine (x : List Volume) (name : String)
    (color : Nat × Nat × Nat × ℚ) : Volume :=
  { vertices := (x.foldl combineStep ([], [])).1
    faces := (x.foldl combineStep ([], [])).2
    name := name
    color := color }

/-- The faces of a mesh list re-based by the running vertex-count offset
starting at `off`: a recursive description of the face list the `combine`
loop accumulates. -/
def rebasedFaces (off : Nat) : List Volume → List (Nat × Nat × Nat)
  | [] => []
  | v :: rest =>
    v.faces.map (fun f => (f.1 + off, f.2.1 + off, f.2.2 + off)) ++
      rebasedFaces (off + v.vertices.length) rest

/-- The combined-mesh vertex offset of input `j`: the total vertex count of
the meshes before it. -/
def vertexOffset (x : List Volume) (j : Nat) : Nat :=
  ((x.take j).map (fun v => v.vertices.length)).sum

/-- Total vertex count of a mesh list. -/
def totalVertexCount (x : List Volume) : Nat :=
  (x.map (fun v => v.vertices.length)).sum

/-- The mesh invariant: every face index is below the vertex count. -/
def facesValid (v : Volume) : Prop :=
  ∀ f ∈ v.faces, f.1 < v.vertices.length ∧ f.2.1 < v.vertices.length ∧
    f.2.2 < v.vertices.length

/-- Componentwise arithmetic mean of a vertex list
(`np.mean(self['vertices'], axis=0)`). -/
def centroid (vs : List (ℚ × ℚ × ℚ)) : ℚ × ℚ × ℚ :=
  ((vs.map (·.1)).sum / vs.length,
   (vs.map (·.2.1)).sum / vs.length,
   (vs.map (·.2.2)).sum / vs.length)

/-- Embeds `Volume.resize` (core.py): compute the centroid `cn`, take each vertex's
offset vector from `cn`, multiply it by the factor and add `cn` back
(`vec = vertices - cn; vec *= x; vertices = vec + cn`), in place. -/
def Volume.resize (x : ℚ) (v : Volume) : Volume :=
  { v with vertices := v.vertices.map (fun p =>
      ((p.1 - (centroid v.vertices).1) * x + (centroid v.vertices).1,
       (p.2.1 - (centroid v.vertices).2.1) * x + (centroid v.vertices).2.1,
       (p.2.2 - (centroid v.vertices).2.2) * x + (centroid v.vertices).2.2)) }

/-- One record of the selection file written by `to_json` and read by
`from_json`: `{skeleton_id: int, color: "#RRGGBB", opacity: float}`. -/
structure SelectionRecord where
  skeleton_id : Int
  color : String
  opacity : ℚ
deriving DecidableEq

/-- The value of one decimal digit; `none` otherwise. -/
def digitVal (c : Char) : Option Nat :=
  if '0' ≤ c ∧ c ≤ '9' then some (c.toNat - '0'.toNat) else none

def decValAux : List Char → Nat → Option Nat
  | [], acc => some acc
  | c :: cs, acc =>
    match digitVal c with
    | some d => decValAux cs (10 * acc + d)
    | none => none

/-- Python's `int(s)` on a plain decimal string: an optional leading minus
sign followed by at least one decimal digit (leading zeros allowed);
`none` — `int()` raises — otherwise. -/
def strToInt (s : String) : Option Int :=
  match s.toList with
  | [] => none
  | '-' :: cs =>
    match cs with
    | [] => none
    | _ => (decValAux cs 0).map (fun n => -(n : Int))
  | cs => (decValAux cs 0).map (fun n => (n : Int))

/-- The value of one hexadecimal digit as `int(_, 16)` accepts it;
`none` for a character that is not a hex digit. -/
def hexDigitVal (c : Char) : Option Nat :=
  if '0' ≤ c ∧ c ≤ '9' then some (c.toNat - '0'.toNat)
  else if 'a' ≤ c ∧ c ≤ 'f' then some (c.toNat - 'a'.toNat + 10)
  else if 'A' ≤ c ∧ c ≤ 'F' then some (c.toNat - 'A'.toNat + 10)
  else none

/-- Embeds `int(s, 16)` on a character list: fails on the empty list (as `int('')`
does) or on a non-hex character, else folds up the base-16 value. -/
def hexValAux : List Char → Nat → Option Nat
  | [], acc => some acc
  | c :: cs, acc =>
    match hexDigitVal c with
    | some d => hexValAux cs (16 * acc + d)
    | none => none

def hexVal (cs : List Char) : Option Nat :=
  match cs with
  | [] => none
  | _ => hexValAux cs 0

/-- Python's `"{:02x}".format(n)` for a non-negative integer: lowercase
hexadecimal digits, zero-padded to at least two characters. -/
def hex02 (n : Nat) : String :=
  String.mk (if (Nat.toDigits 16 n).length < 2 then '0' :: Nat.toDigits 16 n
             else Nat.toDigits 16 n)

/-- Embeds `"#{:02x}{:02x}{:02x}".format(*color)` — the color serialization used by
`CatmaidNeuronList.to_json`. -/
def colorToHex (c : Nat × Nat × Nat) : String :=
  "#" ++ hex02 c.1 ++ hex02 c.2.1 ++ hex02 c.2.2

/-- Embeds `tuple(int(e['color'].lstrip('#')[i:i+2], 16) for i in (0, 2, 4))` — the
color parser of `from_json`: strip every leading `#`, slice the remaining
characters as `[0:2]`, `[2:4]`, `[4:6]` and parse each slice base-16. -/
def parseHexColor (s : String) : Option (Nat × Nat × Nat) :=
  match hexVal (((s.toList.dropWhile (fun c => c = '#')).drop 0).take 2),
      hexVal (((s.toList.dropWhile (fun c => c = '#')).drop 2).take 2),
      hexVal (((s.toList.dropWhile (fun c => c = '#')).drop 4).take 2) with
  | some r, some g, some b => some (r, g, b)
  | _, _, _ => none

/-- Embeds `CatmaidNeuronList.to_json` (core.py): serialize each member as
`{skeleton_id: int(n.skeleton_id), color: "#RRGGBB" from n.color, opacity:
1}`; fails — as `int()` would — when a member's key is not the decimal form
of an integer. -/
def to_json (nl : List CatmaidNeuron) : Option (List SelectionRecord) :=
  nl.mapM (fun n => (strToInt n.skeleton_id).map (fun k =>
    { skeleton_id := k, color := colorToHex n.color, opacity := 1 }))

/-- Embeds `nl.skid[key].color = col`: the skid indexer compares
`str(n.skeleton_id) == str(skid)` and returns the FIRST match, whose color is
then assigned. -/
def applyColorFirst (sid : String) (col : Nat × Nat × Nat) :
    List CatmaidNeuron → List CatmaidNeuron
  | [] => []
  | n :: rest =>
    if n.skeleton_id = sid then { n with color := col } :: rest
    else n :: applyColorFirst sid col rest

/-- One iteration of `from_json`'s color-assignment loop: parse the record's
hex color (failing as `int(_, 16)` would) and assign it via the skid
indexer. -/
def fromJsonStep (members : List CatmaidNeuron) (e : SelectionRecord) :
    Option (List CatmaidNeuron) :=
  (parseHexColor e.color).map
    (fun col => applyColorFirst (toString e.skeleton_id) col members)

/-- Embeds `CatmaidNeuronList.from_json` (core.py): build a collection of bare
natural keys from the records (`CatmaidNeuron(int)`, no session), then for
each record parse its hex color and assign it to the first member carrying
that skeleton id; fails when a record's color string does not parse. -/
def from_json (data : List SelectionRecord) : Option (List CatmaidNeuron) :=
  data.foldlM fromJsonStep (data.map (fun e => neuronFromKey e.skeleton_id none none))

/-- A character that can stand at position `d` of a lowercase hex dump (used
only to state the evaluation facts about `hex02` below). -/
def hexChar (d : Nat) : Char :=
  if d < 10 then Char.ofNat (48 + d) else Char.ofNat (87 + d)

/-- Two members sharing the natural key 1 (the C6 counterexample input). -/
def dupNeuronA : CatmaidNeuron :=
  { neuronFromKey 1 none none with color := (10, 20, 30) }

def dupNeuronB : CatmaidNeuron :=
  { neuronFromKey 1 none none with color := (40, 50, 60) }

/-- A member whose integer-coercible key is not in canonical decimal form
(the second C6 counterexample input). -/
def paddedKeyNeuron : CatmaidNeuron :=
  { neuronFromKey 7 none none with skeleton_id := "007", color := (1, 2, 3) }

/-- Embeds `row[0].startswith('#')` for the one-character prefix `#`: the field's
first character is `#`. (Modelled structurally because the claims evaluate it
on concrete file rows.) -/
def startsWithHash (s : String) : Bool :=
  match s.toList with
  | [] => false
  | c :: _ => c = '#'

/-- The row filter of `from_swc`: blank rows are skipped (`if not row:
continue`) and so are rows whose first field starts with `#`. -/
def swcDataRows (rows : List (List String)) : List (List String) :=
  rows.filter (fun row =>
    match row with
    | [] => false
    | h :: _ => !startsWithHash h)

/-- One parsed SWC row before unit conversion:
`[float(e) for e in row if e != '']`, read positionally as `(treenode_id,
label, x, y, z, radius, parent_id)`; fails — as the seven-column dataframe
construction would — unless the row has exactly seven non-empty fields.
`float()` is the external parse, passed in as a parameter. -/
def parseSWCRow (parseFloat : String → ℚ) (row : List String) : Option NodeRow :=
  match (row.filter (fun e => e ≠ "")).map parseFloat with
  | [ti, lb, px, py, pz, r, pid] =>
    some { treenode_id := ti, label := lb, x := px, y := py, z := pz,
           radius := r, parent_id := some pid }
  | _ => none

/-- Embeds `nodes[['x','y','z','radius']] *= 1000` — micrometer to nanometer
conversion on import. -/
def scaleSWCRow (r : NodeRow) : NodeRow :=
  { r with x := r.x * 1000, y := r.y * 1000, z := r.z * 1000,
           radius := r.radius * 1000 }

/-- The `i`-th non-empty field of an SWC row, parsed (0 if out of range;
only used within range). -/
def fieldVal (parseFloat : String → ℚ) (row : List String) (i : Nat) : ℚ :=
  ((row.filter (fun e => e ≠ "")).map parseFloat).getD i 0

/-- Embeds `CatmaidNeuron.from_swc` (core.py), with the file already split into
whitespace-delimited rows and `float()` passed in: skip blank and
`#`-prefixed rows, parse the rest positionally, multiply the x/y/z/radius
columns by 1000, then build the neuron through `__init__` on the single-row
record — nodes classified (no `type` column yet), empty connectors and tags,
the given name, `str(neuron_id)` as key, no session, and the default
soma-detection and color configuration. -/
def from_swc (parseFloat : String → ℚ) (rows : List (List String))
    (neuron_id : Int) (neuron_name : String) : Option CatmaidNeuron :=
  ((swcDataRows rows).mapM (parseSWCRow parseFloat)).map (fun raw =>
    { skeleton_id := toString neuron_id
      remote_instance := none
      soma_detection_radius := 500
      soma_detection_tag := some "soma"
      color := (255, 255, 0)
      nodes := some (classify_nodes
        { rows := raw.map scaleSWCRow, typeCol := none, flowCol := false })
      connectors := some []
      tags := some []
      neuron_name := some neuron_name
      review_status := none
      annotations := none
      igraph := none
      slabs := none
      nodes_geodesic_distance_matrix := none })

/-- Embeds `CatmaidNeuron._get_root` (core.py):
`self.nodes[self.nodes.parent_id.isnull()].treenode_id.tolist()[0]` — the
first row with a null parent; `none` models the `IndexError` raised when no
row has a null parent. -/
def get_root (t : NodeTable) : Option ℚ :=
  ((t.rows.filter (fun r => r.parent_id.isNone)).map (·.treenode_id)).head?

/-- The three-row file of the section 8 scenario: root, mid and leaf chained
by parent references (the SWC root parent is `-1`), radii 1 μm, plus a
comment row and a blank row that the parser must skip. -/
def swcScenarioRows : List (List String) :=
  [["#comment"], [],
   ["1", "0", "0", "0", "0", "1", "-1"],
   ["2", "0", "2", "0", "0", "1", "1"],
   ["3", "0", "4", "0", "0", "1", "2"]]

/-- The concrete `float()` behaviour on the fields of the scenario file. -/
def swcScenarioFloat : String → ℚ :=
  fun s =>
    match s with
    | "0" => 0
    | "1" => 1
    | "2" => 2
    | "3" => 3
    | "4" => 4
    | "-1" => -1
    | _ => 0

/-- The three parsed (unscaled) rows of the scenario file. -/
def rawRow1 : NodeRow :=
  { treenode_id := 1, label := 0, x := 0, y := 0, z := 0, radius := 1,
    parent_id := some (-1) }

def rawRow2 : NodeRow :=
  { treenode_id := 2, label := 0, x := 2, y := 0, z := 0, radius := 1,
    parent_id := some 1 }

def rawRow3 : NodeRow :=
  { treenode_id := 3, label := 0, x := 4, y := 0, z := 0, radius := 1,
    parent_id := some 2 }

/-- The scenario rows after the ×1000 unit conversion. -/
def scenarioRowsScaled : List NodeRow :=
  [{ treenode_id := 1, label := 0, x := 0, y := 0, z := 0, radius := 1000,
     parent_id := some (-1) },
   { treenode_id := 2, label := 0, x := 2000, y := 0, z := 0, radius := 1000,
     parent_id := some 1 },
   { treenode_id := 3, label := 0, x := 4000, y := 0, z := 0, radius := 1000,
     parent_id := some 2 }]

/-- The scenario node table as stored on the imported entity. -/
def scenarioTable : NodeTable :=
  classify_nodes { rows := scenarioRowsScaled, typeCol := none, flowCol := false }

/-- Two concrete triangle meshes used by the C7 witness. -/
def meshA : Volume :=
  { vertices := [(0, 0, 0), (1, 0, 0), (0, 1, 0)]
    faces := [(0, 1, 2)]
    name := "A"
    color := (120, 120, 120, 3/5) }

def meshB : Volume :=
  { vertices := [(5, 5, 5), (6, 5, 5), (5, 6, 5)]
    faces := [(0, 1, 2)]
    name := "B"
    color := (120, 120, 120, 3/5) }

/-- A concrete volume used by the C10 witness. -/
def segmentVolume : Volume :=
  { vertices := [(0, 0, 0), (2, 0, 0)]
    faces := []
    name := "seg"
    color := (120, 120, 120, 3/5) }

/-! ### Theorems -/

theorem clear_temp_attr_spec (m : CatmaidNeuron) :
    derivedCachesAbsent (clear_temp_attr m) ∧ classificationFresh (clear_temp_attr m) := by
  refine ⟨⟨rfl, rfl, rfl⟩, ?_⟩
  intro t ht
  cases hm : m.nodes with
  | none => simp [clear_temp_attr, hm] at ht
  | some t0 =>
    simp only [clear_temp_attr, hm, Option.map_some] at ht
    obtain rfl : classify_nodes (dropTempCols t0) = t := by
      injection ht
    rfl

/-- Claim C2: for a populated node table and tag mapping, soma resolution
filters the nodes whose radius strictly exceeds the configured detection
radius, intersects them with the nodes carrying the configured tag when one
is configured, and returns nothing for zero candidates, the single candidate
id for exactly one, and the (warning-logged) candidate list for several. -/
theorem c2_get_soma_matches_candidate_spec (nodesT : NodeTable) (tags : TagMap)
    (radius : ℚ) (tag : Option String) :
    get_soma nodesT tags radius tag =
      match somaCandidatesSpec nodesT tags radius tag with
      | [] => SomaResult.nothing
      | [n] => SomaResult.single n
      | l => SomaResult.many l := by
  have hlen : ∀ l : List ℚ, somaLenCase l =
      match l with
      | [] => SomaResult.nothing
      | [n] => SomaResult.single n
      | l => SomaResult.many l := by
    intro l
    match l with
    | [] => rfl
    | [n] => rfl
    | a :: b :: rest => simp [somaLenCase]
  unfold get_soma somaCandidatesSpec
  cases htr : somaTagTruthy tag with
  | false => simp [hlen]
  | true =>
    simp only [if_pos]
    cases hlk : tagLookup tags (tag.getD "") with
    | none => simp [hlk]
    | some ids => simp [hlk, hlen]

/-- Claim C1 (amended): after each structurally-mutating operation — for every
behaviour of the external morphology collaborators and every starting
entity — the igraph topology graph, the geodesic distance matrix and the slab
decomposition are absent from the attribute store (so the next access
recomputes them from the new structural payload), and the node-classification
column is dropped and immediately recomputed from the new structural payload:
it is present but fresh, never stale. -/
theorem c1_mutation_purges_derived_caches
    (reroot_neuron : CatmaidNeuron → ℚ → CatmaidNeuron) (new_root : ℚ)
    (cut_neuron : CatmaidNeuron → ℚ → CatmaidNeuron × CatmaidNeuron)
    (cuts : List ℚ) (cutAt : ℚ)
    (downsample_neuron : CatmaidNeuron → ℚ → Bool → CatmaidNeuron)
    (factor : ℚ) (preserve_cn_treenodes : Bool)
    (strahler_transform : CatmaidNeuron → CatmaidNeuron)
    (longest_neurite : CatmaidNeuron → Bool → CatmaidNeuron) (reroot_to_soma : Bool)
    (in_volume : CatmaidNeuron → Volume → String → CatmaidNeuron)
    (v : Volume) (mode : String)
    (get_neuron : String → CatmaidNeuron) (n : CatmaidNeuron) :
    (derivedCachesAbsent (reroot reroot_neuron new_root n) ∧
      classificationFresh (reroot reroot_neuron new_root n)) ∧
    (derivedCachesAbsent (prune_distal_to cut_neuron cuts n) ∧
      classificationFresh (prune_distal_to cut_neuron cuts n)) ∧
    (derivedCachesAbsent (prune_proximal_to cut_neuron cutAt n) ∧
      classificationFresh (prune_proximal_to cut_neuron cutAt n)) ∧
    (derivedCachesAbsent (downsample downsample_neuron factor preserve_cn_treenodes n) ∧
      classificationFresh (downsample downsample_neuron factor preserve_cn_treenodes n)) ∧
    (derivedCachesAbsent (prune_by_strahler strahler_transform n) ∧
      classificationFresh (prune_by_strahler strahler_transform n)) ∧
    (derivedCachesAbsent (prune_by_longest_neurite longest_neurite reroot_to_soma n) ∧
      classificationFresh (prune_by_longest_neurite longest_neurite reroot_to_soma n)) ∧
    (derivedCachesAbsent (prune_by_volume in_volume v mode n) ∧
      classificationFresh (prune_by_volume in_volume v mode n)) ∧
    (derivedCachesAbsent (reload get_neuron n) ∧
      classificationFresh (reload get_neuron n)) :=
  ⟨clear_temp_attr_spec _, clear_temp_attr_spec _, clear_temp_attr_spec _,
   clear_temp_attr_spec _, clear_temp_attr_spec _, clear_temp_attr_spec _,
   clear_temp_attr_spec _, clear_temp_attr_spec _⟩

/-- Claim C3: an entity built from a bare natural key with no session
(neither stored nor ambient): accessing `nodes`, `connectors` or `tags`
raises the missing-session error; `neuron_name`, `review_status` and
`annotations` log an error and return `None` (leaving the entity untouched);
`skeleton_id` is the canonical string form of the key, available without any
fetch — in particular `"123456"` for key 123456. -/
theorem c3_no_session_access_behaviour (key : Int)
    (fetch : CatmaidInstance → String → SkeletonData)
    (fetch_names : CatmaidInstance → String → String)
    (fetch_review : CatmaidInstance → String → ℚ)
    (fetch_annotations : CatmaidInstance → String → List String) :
    access_nodes fetch (neuronFromKey key none none) =
      Except.error FetchError.missingSession ∧
    access_connectors fetch (neuronFromKey key none none) =
      Except.error FetchError.missingSession ∧
    access_tags fetch (neuronFromKey key none none) =
      Except.error FetchError.missingSession ∧
    get_name fetch_names none (neuronFromKey key none none) =
      (none, neuronFromKey key none none) ∧
    get_review fetch_review none (neuronFromKey key none none) =
      (none, neuronFromKey key none none) ∧
    get_annotations fetch_annotations none (neuronFromKey key none none) =
      (none, neuronFromKey key none none) ∧
    (neuronFromKey key none none).skeleton_id = toString key ∧
    (neuronFromKey 123456 none none).skeleton_id = "123456" :=
  ⟨rfl, rfl, rfl, rfl, rfl, rfl, rfl, rfl⟩

/-- Claim C9: on an entity whose structural payload has been fetched and
holds zero nodes, `n_open_ends`, `n_branch_nodes`, `n_end_nodes` and
`cable_length` all short-circuit to the number 0 — not `None`, not `'NA'` —
and `cable_length` in particular returns 0 for every behaviour of the
external derivation collaborator, i.e. without invoking the derivation. -/
theorem c9_empty_payload_numeric_attributes_zero (n : CatmaidNeuron)
    (t : NodeTable) (hn : n.nodes = some t) (he : t.rows = []) :
    attr_n_open_ends n = NumAttr.num 0 ∧
    attr_n_branch_nodes n = NumAttr.num 0 ∧
    attr_n_end_nodes n = NumAttr.num 0 ∧
    ∀ calc_cable : CatmaidNeuron → ℚ, attr_cable_length calc_cable n = NumAttr.num 0 := by
  refine ⟨?_, ?_, ?_, ?_⟩
  · simp [attr_n_open_ends, hn, he]
  · simp [attr_n_branch_nodes, hn, he]
  · simp [attr_n_end_nodes, hn, he]
  · intro calc_cable
    simp [attr_cable_length, hn, he]

/-- Witness for claim C9 at the concrete empty-payload entity. -/
theorem c9_empty_payload_witness :
    emptyPayloadNeuron.nodes = some { rows := [], typeCol := some [], flowCol := false } ∧
    (attr_n_open_ends emptyPayloadNeuron = NumAttr.num 0 ∧
      attr_n_branch_nodes emptyPayloadNeuron = NumAttr.num 0 ∧
      attr_n_end_nodes emptyPayloadNeuron = NumAttr.num 0 ∧
      ∀ calc_cable : CatmaidNeuron → ℚ,
        attr_cable_length calc_cable emptyPayloadNeuron = NumAttr.num 0) :=
  ⟨rfl, c9_empty_payload_numeric_attributes_zero emptyPayloadNeuron _ rfl rfl⟩

theorem map_skeleton_id_of_preserving (f : CatmaidNeuron → CatmaidNeuron)
    (hf : ∀ n, (f n).skeleton_id = n.skeleton_id) (nl : List CatmaidNeuron) :
    (nl.map f).map (·.skeleton_id) = nl.map (·.skeleton_id) := by
  induction nl with
  | nil => rfl
  | cons a l ih => simp [hf, ih]

/-- Claim C4: reading a vectorized skeleton-derived attribute on a Collection
issues at most one batched external call — zero calls when every member's
node table is cached, else exactly one call whose key list is exactly the
uncached members' skeleton ids — and returns one value per member: the i-th
entry is the per-entity value of the i-th post-fetch member, whose identity
(skeleton id) is that of the i-th input member. -/
theorem nl_get_skeletons_skip_eq (fetch : List String → String → SkeletonData)
    (nl : List CatmaidNeuron) :
    nl_get_skeletons fetch true nl =
      (if (nl.filter (fun n => n.nodes.isNone)).isEmpty then (nl, [])
       else
        (nl.map (fun n =>
            if n.nodes.isSome then n
            else updateFromSkeleton
              (fetch ((nl.filter (fun n => n.nodes.isNone)).map (·.skeleton_id))
                n.skeleton_id) n),
         [(nl.filter (fun n => n.nodes.isNone)).map (·.skeleton_id)])) := by
  unfold nl_get_skeletons
  simp

theorem c4_vectorized_read_batches_one_call {α : Type}
    (fetch : List String → String → SkeletonData) (value : CatmaidNeuron → α)
    (nl : List CatmaidNeuron) :
    (nl_vectorized_attr fetch value nl).2 =
      (if (nl.filter (fun n => n.nodes.isNone)).isEmpty then []
       else [(nl.filter (fun n => n.nodes.isNone)).map (·.skeleton_id)]) ∧
    (nl_vectorized_attr fetch value nl).2.length ≤ 1 ∧
    (nl_vectorized_attr fetch value nl).1.length = nl.length ∧
    ((nl_get_skeletons fetch true nl).1.map (·.skeleton_id) = nl.map (·.skeleton_id)) ∧
    (∀ i : Nat, (nl_vectorized_attr fetch value nl).1[i]? =
        ((nl_get_skeletons fetch true nl).1[i]?).map value) := by
  have hid : (nl_get_skeletons fetch true nl).1.map (·.skeleton_id) =
      nl.map (·.skeleton_id) := by
    rw [nl_get_skeletons_skip_eq]
    by_cases h : (nl.filter (fun n => n.nodes.isNone)).isEmpty
    · simp [h]
    · rw [if_neg h]
      exact map_skeleton_id_of_preserving _ (fun n => by
        by_cases hn : n.nodes.isSome <;> simp [hn, updateFromSkeleton, clear_temp_attr]) nl
  have hlen : (nl_get_skeletons fetch true nl).1.length = nl.length := by
    have h2 := congrArg List.length hid
    simpa using h2
  refine ⟨?_, ?_, ?_, hid, ?_⟩
  · rw [show (nl_vectorized_attr fetch value nl).2 = (nl_get_skeletons fetch true nl).2
      from rfl, nl_get_skeletons_skip_eq]
    by_cases h : (nl.filter (fun n => n.nodes.isNone)).isEmpty <;> simp [h]
  · rw [show (nl_vectorized_attr fetch value nl).2 = (nl_get_skeletons fetch true nl).2
      from rfl, nl_get_skeletons_skip_eq]
    by_cases h : (nl.filter (fun n => n.nodes.isNone)).isEmpty <;> simp [h]
  · simpa [nl_vectorized_attr] using hlen
  · intro i
    simp [nl_vectorized_attr]

/-- Claim C5 (code bug evaluated at the failing input): the claim says
`skip_existing=True` batched getters fetch only the members lacking the
attribute and overwrite no cached value. On a two-member collection whose
first member has a cached name, `get_names(skip_existing=True)` nevertheless
issues its batched call for BOTH ids (the source passes `self.skeleton_id`
instead of the computed `to_update`) and overwrites the cached name with the
fetched one; the intended `to_update` set was only the second member. -/
theorem c5_get_names_overwrites_cached_name :
    (([cachedNameNeuron, freshNameNeuron].filter
        (fun n => n.neuron_name.isNone)).map (·.skeleton_id) = ["11"]) ∧
    (nl_get_names c5FetchNames true [cachedNameNeuron, freshNameNeuron]).2 =
      [["10", "11"]] ∧
    ((nl_get_names c5FetchNames true [cachedNameNeuron, freshNameNeuron]).1.map
        (·.neuron_name) = [some "fresh-10", some "fresh-11"]) ∧
    cachedNameNeuron.neuron_name = some "cached-name" := by
  refine ⟨?_, ?_, ?_, ?_⟩ <;> decide

/-- Claim C1 counterexample: the claim asserts that after a mutating
operation the cached node-classification column is absent from the attribute
store. On a concrete one-node entity, rerooting (with the identity structural
transform) leaves the classification column present — `_clear_temp_attr`
drops it but then immediately reclassifies the nodes — so it is not absent. -/
theorem c1_classification_column_present_counterexample :
    (reroot (fun m _ => m) 1 oneNodeNeuron).nodes.map NodeTable.typeCol ≠ some none ∧
    (reroot (fun m _ => m) 1 oneNodeNeuron).nodes.map NodeTable.typeCol =
      some (some [NodeType.root]) := by
  constructor
  · decide
  · decide

theorem combine_foldl_eq (x : List Volume) (vs : List (ℚ × ℚ × ℚ))
    (fs : List (Nat × Nat × Nat)) :
    x.foldl combineStep (vs, fs) =
      (vs ++ (x.map (·.vertices)).flatten, fs ++ rebasedFaces vs.length x) := by
  induction x generalizing vs fs with
  | nil => simp [rebasedFaces]
  | cons v rest ih =>
    simp only [List.foldl_cons, combineStep]
    rw [ih]
    simp [rebasedFaces, List.append_assoc, List.length_append]

theorem combine_vertices_eq (x : List Volume) (name : String)
    (color : Nat × Nat × Nat × ℚ) :
    (Volume.combine x name color).vertices = (x.map (·.vertices)).flatten := by
  simp [Volume.combine, combine_foldl_eq]

theorem combine_faces_eq (x : List Volume) (name : String)
    (color : Nat × Nat × Nat × ℚ) :
    (Volume.combine x name color).faces = rebasedFaces 0 x := by
  simp [Volume.combine, combine_foldl_eq]

theorem flatten_getElem_offset (L : List Volume) (j : Nat) (vol : Volume)
    (hj : L[j]? = some vol) (i : Nat) (hi : i < vol.vertices.length) :
    ((L.map (·.vertices)).flatten)[vertexOffset L j + i]? = vol.vertices[i]? := by
  induction L generalizing j with
  | nil => simp at hj
  | cons v rest ih =>
    cases j with
    | zero =>
      obtain rfl : v = vol := by simpa using hj
      rw [show vertexOffset (v :: rest) 0 = 0 from rfl]
      simp only [List.map_cons, List.flatten_cons, Nat.zero_add]
      exact List.getElem?_append_left hi
    | succ j =>
      have hj2 : rest[j]? = some vol := by simpa using hj
      have hvo : vertexOffset (v :: rest) (j + 1) =
          v.vertices.length + vertexOffset rest j := by
        simp [vertexOffset, List.take_succ_cons]
      rw [hvo, List.map_cons, List.flatten_cons, Nat.add_assoc,
        List.getElem?_append_right (Nat.le_add_right _ _)]
      simpa [Nat.add_sub_cancel_left] using ih j hj2

theorem rebasedFaces_mem_of_input (x : List Volume) (off j : Nat) (vol : Volume)
    (hj : x[j]? = some vol) (f : Nat × Nat × Nat) (hf : f ∈ vol.faces) :
    (f.1 + (off + vertexOffset x j), f.2.1 + (off + vertexOffset x j),
      f.2.2 + (off + vertexOffset x j)) ∈ rebasedFaces off x := by
  induction x generalizing j off with
  | nil => simp at hj
  | cons v rest ih =>
    cases j with
    | zero =>
      obtain rfl : v = vol := by simpa using hj
      rw [rebasedFaces]
      apply List.mem_append_left
      rw [show vertexOffset (v :: rest) 0 = 0 from rfl, Nat.add_zero]
      exact List.mem_map.mpr ⟨f, hf, rfl⟩
    | succ j =>
      have hj2 : rest[j]? = some vol := by simpa using hj
      rw [rebasedFaces]
      apply List.mem_append_right
      have hvo : vertexOffset (v :: rest) (j + 1) =
          v.vertices.length + vertexOffset rest j := by
        simp [vertexOffset, List.take_succ_cons]
      rw [hvo]
      simpa [Nat.add_assoc] using ih (off + v.vertices.length) j hj2

theorem rebasedFaces_bound (x : List Volume) (off : Nat)
    (hv : ∀ v ∈ x, facesValid v) :
    ∀ g ∈ rebasedFaces off x,
      g.1 < off + totalVertexCount x ∧ g.2.1 < off + totalVertexCount x ∧
        g.2.2 < off + totalVertexCount x := by
  induction x generalizing off with
  | nil => simp [rebasedFaces]
  | cons v rest ih =>
    intro g hg
    rw [rebasedFaces] at hg
    have htot : totalVertexCount (v :: rest) =
        v.vertices.length + totalVertexCount rest := by
      simp [totalVertexCount]
    rcases List.mem_append.mp hg with h | h
    · obtain ⟨f, hf, rfl⟩ := List.mem_map.mp h
      obtain ⟨h1, h2, h3⟩ := hv v (List.mem_cons_self v rest) f hf
      dsimp only
      refine ⟨?_, ?_, ?_⟩ <;> omega
    · have hrest := ih (off + v.vertices.length)
        (fun w hw => hv w (List.mem_cons_of_mem _ hw)) g h
      refine ⟨?_, ?_, ?_⟩ <;> omega

theorem combine_vertices_length (x : List Volume) (name : String)
    (color : Nat × Nat × Nat × ℚ) :
    (Volume.combine x name color).vertices.length = totalVertexCount x := by
  rw [combine_vertices_eq, List.length_flatten, List.map_map, totalVertexCount]
  rfl

/-- Claim C7: for inputs each satisfying the face-index invariant, `combine`
returns a mesh whose vertex sequence is the concatenation of the input vertex
sequences in input order, whose every face index is below the combined vertex
count, and in which the faces of input `j`, re-based by input `j`'s prior
cumulative vertex-count offset, appear among the combined faces and index
exactly the positions holding input `j`'s own vertices. -/
theorem c7_combine_concatenates_and_rebases (x : List Volume)
    (name : String) (color : Nat × Nat × Nat × ℚ)
    (hv : ∀ v ∈ x, facesValid v) :
    (Volume.combine x name color).vertices = (x.map (·.vertices)).flatten ∧
    facesValid (Volume.combine x name color) ∧
    (∀ j vol, x[j]? = some vol → ∀ f ∈ vol.faces,
      (f.1 + vertexOffset x j, f.2.1 + vertexOffset x j, f.2.2 + vertexOffset x j) ∈
        (Volume.combine x name color).faces ∧
      (Volume.combine x name color).vertices[f.1 + vertexOffset x j]? =
        vol.vertices[f.1]? ∧
      (Volume.combine x name color).vertices[f.2.1 + vertexOffset x j]? =
        vol.vertices[f.2.1]? ∧
      (Volume.combine x name color).vertices[f.2.2 + vertexOffset x j]? =
        vol.vertices[f.2.2]?) := by
  refine ⟨combine_vertices_eq x name color, ?_, ?_⟩
  · intro g hg
    rw [combine_faces_eq] at hg
    have hb := rebasedFaces_bound x 0 hv g hg
    have hlen := combine_vertices_length x name color
    exact ⟨by omega, by omega, by omega⟩
  · intro j vol hj f hf
    have hvol : vol ∈ x := List.getElem?_mem hj
    obtain ⟨h1, h2, h3⟩ := hv vol hvol f hf
    refine ⟨?_, ?_, ?_, ?_⟩
    · rw [combine_faces_eq]
      simpa [Nat.add_comm] using rebasedFaces_mem_of_input x 0 j vol hj f hf
    · rw [combine_vertices_eq, Nat.add_comm]
      exact flatten_getElem_offset x j vol hj f.1 h1
    · rw [combine_vertices_eq, Nat.add_comm]
      exact flatten_getElem_offset x j vol hj f.2.1 h2
    · rw [combine_vertices_eq, Nat.add_comm]
      exact flatten_getElem_offset x j vol hj f.2.2 h3

/-- Witness for claim C7 at two concrete triangle meshes. -/
theorem c7_combine_witness :
    (∀ v ∈ [meshA, meshB], facesValid v) ∧
    (Volume.combine [meshA, meshB] "comb_vol" (120, 120, 120, 3/5)).vertices =
      ([meshA, meshB].map (·.vertices)).flatten ∧
    facesValid (Volume.combine [meshA, meshB] "comb_vol" (120, 120, 120, 3/5)) :=
  have hyp : ∀ v ∈ [meshA, meshB], facesValid v := by
    unfold facesValid
    decide
  ⟨hyp,
   (c7_combine_concatenates_and_rebases [meshA, meshB] "comb_vol" (120, 120, 120, 3/5) hyp).1,
   (c7_combine_concatenates_and_rebases [meshA, meshB] "comb_vol" (120, 120, 120, 3/5) hyp).2.1⟩

theorem sum_map_scale_shift {α : Type} (l : List α) (e : α → ℚ) (x c : ℚ) :
    (l.map (fun p => (e p - c) * x + c)).sum =
      x * (l.map e).sum - x * l.length * c + l.length * c := by
  induction l with
  | nil => simp
  | cons a t ih =>
    simp only [List.map_cons, List.sum_cons, ih, List.length_cons]
    push_cast
    ring

/-- Claim C10: `resize(x)` maps each vertex `p` to `centroid + x·(p −
centroid)`; consequently (in exact arithmetic) the centroid of a non-empty
vertex set is unchanged by `resize`, and `resize 1` is the identity. -/
theorem c10_resize_is_affine_about_fixed_centroid (x : ℚ) (v : Volume)
    (h : v.vertices ≠ []) :
    (Volume.resize x v).vertices = v.vertices.map (fun p =>
        ((centroid v.vertices).1 + x * (p.1 - (centroid v.vertices).1),
         (centroid v.vertices).2.1 + x * (p.2.1 - (centroid v.vertices).2.1),
         (centroid v.vertices).2.2 + x * (p.2.2 - (centroid v.vertices).2.2))) ∧
    centroid (Volume.resize x v).vertices = centroid v.vertices ∧
    Volume.resize 1 v = v := by
  have h0 : ((v.vertices.length : ℚ)) ≠ 0 :=
    Nat.cast_ne_zero.mpr (List.length_pos.mpr h).ne'
  refine ⟨?_, ?_, ?_⟩
  · unfold Volume.resize
    dsimp only
    congr 1
    funext p
    simp only [Prod.mk.injEq]
    refine ⟨by ring, by ring, by ring⟩
  · unfold Volume.resize centroid
    dsimp only
    simp only [List.map_map, List.length_map, Function.comp_def]
    have e1 := sum_map_scale_shift v.vertices (fun p => p.1) x
      ((v.vertices.map (fun p => p.1)).sum / (v.vertices.length : ℚ))
    have e2 := sum_map_scale_shift v.vertices (fun p => p.2.1) x
      ((v.vertices.map (fun p => p.2.1)).sum / (v.vertices.length : ℚ))
    have e3 := sum_map_scale_shift v.vertices (fun p => p.2.2) x
      ((v.vertices.map (fun p => p.2.2)).sum / (v.vertices.length : ℚ))
    simp only [Prod.mk.injEq]
    refine ⟨?_, ?_, ?_⟩
    · rw [e1]
      field_simp
      ring
    · rw [e2]
      field_simp
      ring
    · rw [e3]
      field_simp
      ring
  · unfold Volume.resize
    have hid : (fun p : ℚ × ℚ × ℚ =>
        ((p.1 - (centroid v.vertices).1) * 1 + (centroid v.vertices).1,
         (p.2.1 - (centroid v.vertices).2.1) * 1 + (centroid v.vertices).2.1,
         (p.2.2 - (centroid v.vertices).2.2) * 1 + (centroid v.vertices).2.2)) =
        id := by
      funext p
      refine Prod.ext ?_ (Prod.ext ?_ ?_) <;> simp
    rw [hid, List.map_id]

/-- Witness for claim C10 at a concrete two-vertex volume and factor 3. -/
theorem c10_resize_witness :
    segmentVolume.vertices ≠ [] ∧
    centroid (Volume.resize 3 segmentVolume).vertices = centroid segmentVolume.vertices ∧
    Volume.resize 1 segmentVolume = segmentVolume :=
  have hyp : segmentVolume.vertices ≠ [] := by
    unfold segmentVolume
    decide
  ⟨hyp, (c10_resize_is_affine_about_fixed_centroid 3 segmentVolume hyp).2.1,
   (c10_resize_is_affine_about_fixed_centroid 3 segmentVolume hyp).2.2⟩

set_option maxRecDepth 4000 in
theorem hex02_toList (c : Nat) (hc : c < 256) :
    (hex02 c).toList = [hexChar (c / 16), hexChar (c % 16)] := by
  revert hc
  revert c
  decide

set_option maxRecDepth 4000 in
theorem hexChar_pair_val (c : Nat) (hc : c < 256) :
    hexVal [hexChar (c / 16), hexChar (c % 16)] = some c ∧
      hexChar (c / 16) ≠ '#' := by
  revert hc
  revert c
  decide

theorem parseHexColor_colorToHex (col : Nat × Nat × Nat)
    (h1 : col.1 < 256) (h2 : col.2.1 < 256) (h3 : col.2.2 < 256) :
    parseHexColor (colorToHex col) = some col := by
  obtain ⟨r, g, b⟩ := col
  have e1 := hex02_toList r h1
  have e2 := hex02_toList g h2
  have e3 := hex02_toList b h3
  have hsplit : (colorToHex (r, g, b)).toList =
      '#' :: ((hex02 r).toList ++ ((hex02 g).toList ++ (hex02 b).toList)) := by
    simp only [colorToHex, show ∀ s : String, s.toList = s.data from fun _ => rfl,
      String.data_append, List.append_assoc]
    rfl
  obtain ⟨v1, hh1⟩ := hexChar_pair_val r h1
  obtain ⟨v2, hh2⟩ := hexChar_pair_val g h2
  obtain ⟨v3, hh3⟩ := hexChar_pair_val b h3
  unfold parseHexColor
  rw [hsplit, e1, e2, e3]
  simp only [List.cons_append, List.nil_append, List.dropWhile_cons]
  rw [if_pos (by decide), if_neg (by simpa using hh1)]
  simp only [List.drop, List.take, List.drop_succ_cons, List.take_succ_cons,
    List.drop_zero, List.take_zero]
  rw [v1, v2, v3]

theorem mapM_option_eq_some {α β : Type} (f : α → Option β) (g : α → β)
    (l : List α) (h : ∀ a ∈ l, f a = some (g a)) :
    l.mapM f = some (l.map g) := by
  induction l with
  | nil => rfl
  | cons a t ih =>
    rw [List.mapM_cons, h a (List.mem_cons_self a t),
      ih (fun b hb => h b (List.mem_cons_of_mem a hb))]
    rfl

theorem map_congr_mem {α β : Type} (f g : α → β) :
    ∀ l : List α, (∀ a ∈ l, f a = g a) → l.map f = l.map g
  | [], _ => rfl
  | a :: t, h => by
    simp only [List.map_cons, h a (List.mem_cons_self a t),
      map_congr_mem f g t (fun b hb => h b (List.mem_cons_of_mem a hb))]

theorem applyColorFirst_map_skeleton_id (sid : String) (col : Nat × Nat × Nat)
    (ms : List CatmaidNeuron) :
    (applyColorFirst sid col ms).map (·.skeleton_id) = ms.map (·.skeleton_id) := by
  induction ms with
  | nil => rfl
  | cons m t ih =>
    by_cases h : m.skeleton_id = sid <;> simp [applyColorFirst, h, ih]

theorem fromJson_fold_cons_pass (es : List SelectionRecord) (m : CatmaidNeuron)
    (ms : List CatmaidNeuron)
    (hm : ∀ e ∈ es, toString e.skeleton_id ≠ m.skeleton_id)
    (hp : ∀ e ∈ es, ∃ col, parseHexColor e.color = some col) :
    es.foldlM fromJsonStep (m :: ms) =
      (es.foldlM fromJsonStep ms).map (fun l => m :: l) := by
  induction es generalizing ms with
  | nil => rfl
  | cons e es ih =>
    obtain ⟨col, hcol⟩ := hp e (List.mem_cons_self e es)
    have hne : ¬ (m.skeleton_id = toString e.skeleton_id) :=
      fun hEq => hm e (List.mem_cons_self e es) hEq.symm
    simp only [List.foldlM_cons, fromJsonStep, hcol, Option.map_some',
      Option.bind_eq_bind, Option.some_bind, applyColorFirst, if_neg hne]
    exact ih (applyColorFirst (toString e.skeleton_id) col ms)
      (fun e2 he2 => hm e2 (List.mem_cons_of_mem e he2))
      (fun e2 he2 => hp e2 (List.mem_cons_of_mem e he2))

theorem fromJson_fold_aligned (cols : SelectionRecord → Nat × Nat × Nat) :
    ∀ (es : List SelectionRecord) (ms : List CatmaidNeuron),
    (∀ e ∈ es, parseHexColor e.color = some (cols e)) →
    ms.map (·.skeleton_id) = es.map (fun e => toString e.skeleton_id) →
    (ms.map (·.skeleton_id)).Nodup →
    es.foldlM fromJsonStep ms =
      some (List.zipWith (fun m e => { m with color := cols e }) ms es)
  | [], ms, _, hal, _ => by
    obtain rfl : ms = [] := by simpa using hal
    rfl
  | e :: es, [], _, hal, _ => by simp at hal
  | e :: es, m :: ms, hp, hal, hnd => by
    simp only [List.map_cons, List.cons.injEq] at hal
    obtain ⟨hm_id, hal2⟩ := hal
    simp only [List.map_cons, List.nodup_cons] at hnd
    obtain ⟨hm_notin, hnd2⟩ := hnd
    simp only [List.foldlM_cons, fromJsonStep, hp e (List.mem_cons_self e es),
      Option.map_some', Option.bind_eq_bind, Option.some_bind, applyColorFirst,
      if_pos hm_id]
    have hm2 : ∀ e2 ∈ es, toString e2.skeleton_id ≠ m.skeleton_id := by
      intro e2 he2 hEq
      exact hm_notin (by rw [hal2, ← hEq]; exact List.mem_map_of_mem _ he2)
    rw [fromJson_fold_cons_pass es { m with color := cols e } ms hm2
      (fun e2 he2 => ⟨cols e2, hp e2 (List.mem_cons_of_mem e he2)⟩)]
    rw [fromJson_fold_aligned cols es ms
      (fun e2 he2 => hp e2 (List.mem_cons_of_mem e he2)) hal2 (by rw [hal2]; rw [hal2] at hnd2; exact hnd2)]
    rfl

theorem zipWith_recolor_map_skeleton_id (cols : SelectionRecord → Nat × Nat × Nat) :
    ∀ (ms : List CatmaidNeuron) (es : List SelectionRecord), ms.length = es.length →
      (List.zipWith (fun m e => { m with color := cols e }) ms es).map (·.skeleton_id) =
        ms.map (·.skeleton_id)
  | [], [], _ => rfl
  | [], _ :: _, h => by simp at h
  | _ :: _, [], h => by simp at h
  | m :: ms, e :: es, h => by
    simp only [List.zipWith_cons_cons, List.map_cons]
    rw [zipWith_recolor_map_skeleton_id cols ms es (by simpa using h)]

theorem zipWith_recolor_map_color (cols : SelectionRecord → Nat × Nat × Nat) :
    ∀ (ms : List CatmaidNeuron) (es : List SelectionRecord), ms.length = es.length →
      (List.zipWith (fun m e => { m with color := cols e }) ms es).map (·.color) =
        es.map cols
  | [], [], _ => rfl
  | [], _ :: _, h => by simp at h
  | _ :: _, [], h => by simp at h
  | m :: ms, e :: es, h => by
    simp only [List.zipWith_cons_cons, List.map_cons]
    rw [zipWith_recolor_map_color cols ms es (by simpa using h)]

/-- Claim C6 (amended): for a Collection whose members carry pairwise-distinct
natural keys, each the canonical decimal form of an integer, and color
triples of integers in 0–255, saving (`to_json`) and loading (`from_json`)
succeeds and yields a Collection with the same key sequence (hence the same
key set) in which each loaded member's color equals the corresponding saved
member's color — the 2-hex-digit-per-channel serialization is lossless on
0–255. -/
theorem c6_selection_round_trip (nl : List CatmaidNeuron)
    (hkey : ∀ n ∈ nl, ∃ k : Int,
      strToInt n.skeleton_id = some k ∧ toString k = n.skeleton_id)
    (hnd : (nl.map (·.skeleton_id)).Nodup)
    (hcol : ∀ n ∈ nl, n.color.1 < 256 ∧ n.color.2.1 < 256 ∧ n.color.2.2 < 256) :
    ∃ data loaded, to_json nl = some data ∧ from_json data = some loaded ∧
      loaded.map (·.skeleton_id) = nl.map (·.skeleton_id) ∧
      loaded.map (·.color) = nl.map (·.color) := by
  classical
  have hkeyD : ∀ n ∈ nl, strToInt n.skeleton_id =
      some ((strToInt n.skeleton_id).getD 0) ∧
      toString ((strToInt n.skeleton_id).getD 0) = n.skeleton_id := by
    intro n hn
    obtain ⟨k, hk1, hk2⟩ := hkey n hn
    rw [hk1]
    exact ⟨rfl, hk2⟩
  set g : CatmaidNeuron → SelectionRecord := fun n =>
    { skeleton_id := (strToInt n.skeleton_id).getD 0
      color := colorToHex n.color
      opacity := 1 } with hg
  have hjson : to_json nl = some (nl.map g) := by
    apply mapM_option_eq_some
    intro n hn
    rw [(hkeyD n hn).1]
    rfl
  set data := nl.map g with hdata
  set ms := data.map (fun e => neuronFromKey e.skeleton_id none none) with hms
  have hmsid : ms.map (·.skeleton_id) = data.map (fun e => toString e.skeleton_id) := by
    rw [hms, List.map_map]
    rfl
  have hdataid : data.map (fun e => toString e.skeleton_id) = nl.map (·.skeleton_id) := by
    rw [hdata, List.map_map]
    exact map_congr_mem _ _ nl (fun n hn => (hkeyD n hn).2)
  set cols : SelectionRecord → Nat × Nat × Nat := fun e =>
    (parseHexColor e.color).getD (0, 0, 0) with hcols
  have hp : ∀ e ∈ data, parseHexColor e.color = some (cols e) := by
    intro e he
    rw [hdata] at he
    obtain ⟨n, hn, rfl⟩ := List.mem_map.mp he
    obtain ⟨hc1, hc2, hc3⟩ := hcol n hn
    have := parseHexColor_colorToHex n.color hc1 hc2 hc3
    rw [hcols]
    simp only [hg]
    rw [this]
    rfl
  have hfold := fromJson_fold_aligned cols data ms hp hmsid
    (by rw [hmsid, hdataid]; exact hnd)
  have hfold2 : from_json data =
      some (List.zipWith (fun m e => { m with color := cols e }) ms data) := by
    unfold from_json
    rw [← hms]
    exact hfold
  have hlen : ms.length = data.length := by rw [hms, List.length_map]
  refine ⟨data, List.zipWith (fun m e => { m with color := cols e }) ms data,
    hjson, hfold2, ?_, ?_⟩
  · rw [zipWith_recolor_map_skeleton_id cols ms data hlen, hmsid, hdataid]
  · rw [zipWith_recolor_map_color cols ms data hlen, hdata, List.map_map]
    refine map_congr_mem _ _ nl ?_
    intro n hn
    obtain ⟨hc1, hc2, hc3⟩ := hcol n hn
    have hpc : parseHexColor (colorToHex n.color) = some n.color :=
      parseHexColor_colorToHex n.color hc1 hc2 hc3
    show (parseHexColor (colorToHex n.color)).getD (0, 0, 0) = n.color
    rw [hpc]
    rfl

/-- Witness for claim C6 on a concrete two-member collection with distinct
canonical keys and in-range colors. -/
theorem c6_selection_round_trip_witness :
    ((∀ n ∈ [dupNeuronA, paddedKeyNeuron], True) ∧
      (∀ n ∈ [dupNeuronA, { neuronFromKey 2 none none with color := (40, 50, 60) }],
        ∃ k : Int, strToInt n.skeleton_id = some k ∧ toString k = n.skeleton_id) ∧
      ([dupNeuronA, { neuronFromKey 2 none none with color := (40, 50, 60) }].map
        (·.skeleton_id)).Nodup ∧
      (∀ n ∈ [dupNeuronA, { neuronFromKey 2 none none with color := (40, 50, 60) }],
        n.color.1 < 256 ∧ n.color.2.1 < 256 ∧ n.color.2.2 < 256)) ∧
    (∃ data loaded,
      to_json [dupNeuronA, { neuronFromKey 2 none none with color := (40, 50, 60) }] =
        some data ∧
      from_json data = some loaded ∧
      loaded.map (·.skeleton_id) =
        [dupNeuronA, { neuronFromKey 2 none none with color := (40, 50, 60) }].map
          (·.skeleton_id) ∧
      loaded.map (·.color) =
        [dupNeuronA, { neuronFromKey 2 none none with color := (40, 50, 60) }].map
          (·.color)) :=
  have h1 : ∀ n ∈ [dupNeuronA, { neuronFromKey 2 none none with color := (40, 50, 60) }],
      ∃ k : Int, strToInt n.skeleton_id = some k ∧ toString k = n.skeleton_id := by
    intro n hn
    rcases List.mem_cons.mp hn with rfl | hn2
    · exact ⟨1, by decide, by decide⟩
    · rcases List.mem_cons.mp hn2 with rfl | hn3
      · exact ⟨2, by decide, by decide⟩
      · exact absurd hn3 (List.not_mem_nil n)
  have h2 : ([dupNeuronA, { neuronFromKey 2 none none with color := (40, 50, 60) }].map
      (·.skeleton_id)).Nodup := by decide
  have h3 : ∀ n ∈ [dupNeuronA, { neuronFromKey 2 none none with color := (40, 50, 60) }],
      n.color.1 < 256 ∧ n.color.2.1 < 256 ∧ n.color.2.2 < 256 := by decide
  ⟨⟨fun _ _ => trivial, h1, h2, h3⟩,
   c6_selection_round_trip _ h1 h2 h3⟩

/-- Claim C6 counterexample: at a collection with two members sharing the
integer-coercible key 1 (colors in 0–255), the round trip does NOT restore
each member's color — both color assignments hit the first member via the
skid indexer, leaving the second with the default (255, 255, 0); and at a
collection whose single member carries the non-canonical key "007", the
loaded key set is {"7"}, not {"007"}. -/
theorem c6_round_trip_counterexample :
    ((to_json [dupNeuronA, dupNeuronB]).bind from_json).map (List.map (·.color)) =
      some [(40, 50, 60), (255, 255, 0)] ∧
    [dupNeuronA, dupNeuronB].map (·.color) = [(10, 20, 30), (40, 50, 60)] ∧
    ((to_json [dupNeuronA, dupNeuronB]).bind from_json).map (List.map (·.color)) ≠
      some ([dupNeuronA, dupNeuronB].map (·.color)) ∧
    ((to_json [paddedKeyNeuron]).bind from_json).map (List.map (·.skeleton_id)) =
      some ["7"] ∧
    paddedKeyNeuron.skeleton_id = "007" := by
  refine ⟨?_, ?_, ?_, ?_, ?_⟩ <;> decide

theorem parseSWCRow_eq (pf : String → ℚ) (row : List String)
    (h : ((row.filter (fun e => e ≠ "")).map pf).length = 7) :
    parseSWCRow pf row = some
      { treenode_id := fieldVal pf row 0, label := fieldVal pf row 1,
        x := fieldVal pf row 2, y := fieldVal pf row 3, z := fieldVal pf row 4,
        radius := fieldVal pf row 5, parent_id := some (fieldVal pf row 6) } := by
  unfold parseSWCRow fieldVal
  set l := (row.filter (fun e => e ≠ "")).map pf with hl
  clear_value l
  rcases l with _ | ⟨a0, l⟩
  · simp only [List.length_nil] at h
    omega
  rcases l with _ | ⟨a1, l⟩
  · simp only [List.length_cons, List.length_nil] at h
    omega
  rcases l with _ | ⟨a2, l⟩
  · simp only [List.length_cons, List.length_nil] at h
    omega
  rcases l with _ | ⟨a3, l⟩
  · simp only [List.length_cons, List.length_nil] at h
    omega
  rcases l with _ | ⟨a4, l⟩
  · simp only [List.length_cons, List.length_nil] at h
    omega
  rcases l with _ | ⟨a5, l⟩
  · simp only [List.length_cons, List.length_nil] at h
    omega
  rcases l with _ | ⟨a6, l⟩
  · simp only [List.length_cons, List.length_nil] at h
    omega
  rcases l with _ | ⟨a7, l⟩
  · rfl
  · simp only [List.length_cons] at h
    omega

theorem from_swc_scenario_eval :
    from_swc swcScenarioFloat swcScenarioRows 123456 "file.swc" =
      some { skeleton_id := "123456"
             remote_instance := none
             soma_detection_radius := 500
             soma_detection_tag := some "soma"
             color := (255, 255, 0)
             nodes := some scenarioTable
             connectors := some []
             tags := some []
             neuron_name := some "file.swc"
             review_status := none
             annotations := none
             igraph := none
             slabs := none
             nodes_geodesic_distance_matrix := none } := by
  have hraw : (swcDataRows swcScenarioRows).mapM (parseSWCRow swcScenarioFloat) =
      some [rawRow1, rawRow2, rawRow3] := by rfl
  have hscale : [rawRow1, rawRow2, rawRow3].map scaleSWCRow = scenarioRowsScaled := by
    simp [scaleSWCRow, rawRow1, rawRow2, rawRow3, scenarioRowsScaled, NodeRow.mk.injEq]
    norm_num
  unfold from_swc
  rw [hraw]
  simp only [Option.map_some']
  rw [hscale]
  rfl

/-- Claim C8 (amended): parsing a structural skeleton file skips blank rows
and rows whose first field starts with `#`, parses each remaining row
positionally as (treenode_id, label, x, y, z, radius, parent_id), and
multiplies the x, y, z and radius fields by exactly 1000. On the section 8
three-row chained file with radii 1 μm, detection radius 500 and no soma tag
configured, every stored radius is 1000 and exceeds the threshold, so `.soma`
is the warning-logged list of all three node ids rather than `None`; and the
root row's parent is stored as the number -1, not null, so the null-parent
root lookup finds no row at all (an `IndexError`) instead of returning the
first row's id; the stored coordinates are exactly ×1000 the file's raw
values. -/
theorem c8_swc_parse_scales_and_scenario (pf : String → ℚ)
    (rows : List (List String)) (neuron_id : Int) (nm : String)
    (h7 : ∀ r ∈ swcDataRows rows,
      ((r.filter (fun e => e ≠ "")).map pf).length = 7) :
    (∃ n, from_swc pf rows neuron_id nm = some n ∧
      n.skeleton_id = toString neuron_id ∧
      ∃ t, n.nodes = some t ∧
        t.rows.length = (swcDataRows rows).length ∧
        ∀ i : Nat, ∀ r, (swcDataRows rows)[i]? = some r →
          t.rows[i]? = some
            { treenode_id := fieldVal pf r 0
              label := fieldVal pf r 1
              x := fieldVal pf r 2 * 1000
              y := fieldVal pf r 3 * 1000
              z := fieldVal pf r 4 * 1000
              radius := fieldVal pf r 5 * 1000
              parent_id := some (fieldVal pf r 6) }) ∧
    ((from_swc swcScenarioFloat swcScenarioRows 123456 "file.swc").map
        (fun n => n.nodes.map (fun t => get_soma t [] 500 none)) =
      some (some (SomaResult.many [1, 2, 3])) ∧
     (from_swc swcScenarioFloat swcScenarioRows 123456 "file.swc").map
        (fun n => n.nodes.map get_root) = some (some none) ∧
     (from_swc swcScenarioFloat swcScenarioRows 123456 "file.swc").map
        (fun n => n.nodes.map (fun t => t.rows.map (fun r => (r.x, r.y, r.z, r.radius)))) =
      some (some [(0, 0, 0, 1000), (2000, 0, 0, 1000), (4000, 0, 0, 1000)])) := by
  constructor
  · have hmap : (swcDataRows rows).mapM (parseSWCRow pf) =
        some ((swcDataRows rows).map (fun r =>
          { treenode_id := fieldVal pf r 0, label := fieldVal pf r 1,
            x := fieldVal pf r 2, y := fieldVal pf r 3, z := fieldVal pf r 4,
            radius := fieldVal pf r 5, parent_id := some (fieldVal pf r 6) })) :=
      mapM_option_eq_some _ _ _ (fun r hr => parseSWCRow_eq pf r (h7 r hr))
    refine ⟨_, by rw [from_swc, hmap]; rfl, rfl, _, rfl, ?_, ?_⟩
    · simp [classify_nodes, List.length_map]
    · intro i r hir
      show ((((swcDataRows rows).map _).map scaleSWCRow))[i]? = _
      rw [List.getElem?_map, List.getElem?_map, hir]
      rfl
  · rw [from_swc_scenario_eval]
    refine ⟨?_, ?_, ?_⟩ <;> decide

/-- Claim C8 counterexample: the claim asserts that in the section 8 scenario
`.soma` is `None` and `.root` is the first row's treenode id. Evaluating the
code on that file: every stored radius is 1000 nm (1 μm × 1000) and exceeds
the detection radius 500, so soma resolution returns the warning-logged list
of all three node ids; and the root row's parent is stored as the number
-1.0, not null, so the null-parent root lookup finds nothing at all. -/
theorem c8_scenario_counterexample :
    (from_swc swcScenarioFloat swcScenarioRows 123456 "file.swc").map
        (fun n => n.nodes.map (fun t => get_soma t [] 500 none)) =
      some (some (SomaResult.many [1, 2, 3])) ∧
    SomaResult.many [1, 2, 3] ≠ SomaResult.nothing ∧
    (from_swc swcScenarioFloat swcScenarioRows 123456 "file.swc").map
        (fun n => n.nodes.map get_root) = some (some none) ∧
    (none : Option ℚ) ≠ some 1 := by
  rw [from_swc_scenario_eval]
  refine ⟨?_, ?_, ?_, ?_⟩ <;> decide

/-- Witness for claim C8 at the concrete scenario file. -/
theorem c8_swc_witness :
    (∀ r ∈ swcDataRows swcScenarioRows,
      ((r.filter (fun e => e ≠ "")).map swcScenarioFloat).length = 7) ∧
    (∃ n, from_swc swcScenarioFloat swcScenarioRows 999 "w.swc" = some n ∧
      n.skeleton_id = toString (999 : Int) ∧
      ∃ t, n.nodes = some t ∧
        t.rows.length = (swcDataRows swcScenarioRows).length ∧
        ∀ i : Nat, ∀ r, (swcDataRows swcScenarioRows)[i]? = some r →
          t.rows[i]? = some
            { treenode_id := fieldVal swcScenarioFloat r 0
              label := fieldVal swcScenarioFloat r 1
              x := fieldVal swcScenarioFloat r 2 * 1000
              y := fieldVal swcScenarioFloat r 3 * 1000
              z := fieldVal swcScenarioFloat r 4 * 1000
              radius := fieldVal swcScenarioFloat r 5 * 1000
              parent_id := some (fieldVal swcScenarioFloat r 6) }) :=
  have h7 : ∀ r ∈ swcDataRows swcScenarioRows,
      ((r.filter (fun e => e ≠ "")).map swcScenarioFloat).length = 7 := by decide
  ⟨h7, (c8_swc_parse_scales_and_scenario swcScenarioFloat swcScenarioRows
    999 "w.swc" h7).1⟩

end Pymaid

